import Mathlib

/-!
Shallow embedding of the tessellations-project pattern generators
(`src/tessellations/core/generator.py`, `svg_generator.py`,
`complex_svg_generator.py`, `islamic_pattern_generator.py`) and proofs
about them.

Modelling conventions:
* Python ints are `ℕ`/`ℤ`; Python floats are exact rationals `ℚ`.
* The transcendental float functions `math.pi`, `math.cos`, `math.sin`,
  `math.sqrt` are abstracted into a `Trig` parameter, so theorems about
  element structure and counts hold for every possible float valuation.
* Fallible code (Python exceptions) returns `Except String`.
* Filesystem side effects are an explicit event log (`FsEvent`).
* String interpolation of floats (`stroke_width`, colors) is modelled by
  storing the interpolated text; numeral rendering of coordinates is a
  concrete decimal/fraction printer `qstr` (digit-for-digit float
  formatting is irrelevant to every claim proved here).
-/

set_option linter.unusedVariables false

set_option maxRecDepth 10000

/-- Valuation for the transcendental float constants and functions used by
the Python sources (`math.pi`, `math.cos`, `math.sin`, `math.sqrt`),
modelled as exact rational-valued functions. -/
structure Trig where
  pi : ℚ
  cos : ℚ → ℚ
  sin : ℚ → ℚ
  sqrt : ℚ → ℚ

/-- A degenerate valuation, used to instantiate closed statements. -/
def T0 : Trig := ⟨355 / 113, fun _ => 1, fun _ => 0, fun q => q⟩

/-- Python `int(x)` on a float: truncation toward zero. -/
def pytrunc (q : ℚ) : ℤ := Int.tdiv q.num (q.den : ℤ)

/-- Number of elements of Python `range(start, stop, step)` for `step > 0`. -/
def pyRangeLen (start stop step : ℤ) : ℕ :=
  if stop ≤ start then 0 else (stop - start - 1).toNat / step.toNat + 1

/-- Python `range(start, stop, step)` for `step > 0`, as a list. -/
def pyRange (start stop step : ℤ) : List ℤ :=
  (List.range (pyRangeLen start stop step)).map (fun k => start + step * (k : ℤ))

/-- Decimal digits accumulator: `natCharsGo fuel n acc` prepends the decimal
digits of `n` to `acc` (`fuel ≥ 1 + log10 n` suffices). -/
def natCharsGo : ℕ → ℕ → List Char → List Char
  | 0, _, acc => acc
  | fuel + 1, n, acc =>
    let c := Char.ofNat (48 + n % 10)
    if n < 10 then c :: acc else natCharsGo fuel (n / 10) (c :: acc)

/-- Decimal rendering of a natural number (Python `f"{n}"` for an int). -/
def natStr (n : ℕ) : String := ⟨natCharsGo (n + 1) n []⟩

/-- Rendering of a rational coordinate. Python renders floats in decimal;
the exact digit sequence is irrelevant to the claims, so an exact
sign/numerator/denominator form is used. -/
def qstr (q : ℚ) : String :=
  (if q < 0 then "-" else "") ++ natStr q.num.natAbs ++
    (if q.den = 1 then "" else "/" ++ natStr q.den)

/-- Filesystem side effects performed by `generate`. -/
inductive FsEvent where
  | mkdirParent (path : String)
  | write (path : String) (content : String)
  deriving DecidableEq, Repr

/-- SVG path-data commands emitted by the generators. -/
inductive PathCmd where
  | moveTo (x y : ℚ)
  | lineTo (x y : ℚ)
  | cubicTo (c1x c1y c2x c2y x y : ℚ)
  | quadTo (cx cy x y : ℚ)
  | arcTo (rx ry : ℚ) (largeArc sweep : Bool) (x y : ℚ)
  | closePath
  deriving DecidableEq, Repr

/-- SVG shape elements emitted inside the style group. -/
inductive SvgElem where
  | line (x1 y1 x2 y2 : ℚ)
  | polygon (points : List (ℚ × ℚ))
  | circle (cx cy r : ℚ)
  | path (cmds : List PathCmd)
  deriving DecidableEq, Repr

def SvgElem.isLine : SvgElem → Bool
  | .line _ _ _ _ => true
  | _ => false

def SvgElem.isPolygon : SvgElem → Bool
  | .polygon _ => true
  | _ => false

/-- Polygon with exactly `n` vertices. -/
def SvgElem.isPolyWith (n : ℕ) : SvgElem → Bool
  | .polygon pts => pts.length = n
  | _ => false

def renderPt (p : ℚ × ℚ) : String := qstr p.1 ++ "," ++ qstr p.2

def renderPts : List (ℚ × ℚ) → String
  | [] => ""
  | [p] => renderPt p
  | p :: q :: ps => renderPt p ++ " " ++ renderPts (q :: ps)

def renderCmd : PathCmd → String
  | .moveTo x y => "M " ++ qstr x ++ "," ++ qstr y ++ " "
  | .lineTo x y => "L " ++ qstr x ++ "," ++ qstr y ++ " "
  | .cubicTo a b c d x y =>
      "C " ++ qstr a ++ "," ++ qstr b ++ " " ++ qstr c ++ "," ++ qstr d ++
        " " ++ qstr x ++ "," ++ qstr y ++ " "
  | .quadTo a b x y =>
      "Q " ++ qstr a ++ "," ++ qstr b ++ " " ++ qstr x ++ "," ++ qstr y ++ " "
  | .arcTo rx ry la sw x y =>
      "A " ++ qstr rx ++ "," ++ qstr ry ++ " 0 " ++
        (if la then "1" else "0") ++ "," ++ (if sw then "1" else "0") ++
        " " ++ qstr x ++ "," ++ qstr y ++ " "
  | .closePath => "Z "

def renderCmds (cmds : List PathCmd) : String :=
  cmds.foldr (fun c acc => renderCmd c ++ acc) ""

def renderElem : SvgElem → String
  | .line x1 y1 x2 y2 =>
      "  <line x1=\"" ++ qstr x1 ++ "\" y1=\"" ++ qstr y1 ++ "\" x2=\"" ++
        qstr x2 ++ "\" y2=\"" ++ qstr y2 ++ "\" />\n"
  | .polygon pts => "  <polygon points=\"" ++ renderPts pts ++ "\" />\n"
  | .circle cx cy r =>
      "  <circle cx=\"" ++ qstr cx ++ "\" cy=\"" ++ qstr cy ++ "\" r=\"" ++
        qstr r ++ "\" />\n"
  | .path cmds => "  <path d=\"" ++ renderCmds cmds ++ "\" />\n"

def renderElems (es : List SvgElem) : String :=
  es.foldr (fun e acc => renderElem e ++ acc) ""

namespace RasterGen

/-!
Embedding of `src/tessellations/core/generator.py`
(`TessellationGenerator`). The PIL drawing surface is modelled as the
image metadata plus the ordered list of drawing calls.
-/

/-- `(255, 255, 255)` / `(0, 0, 0)` from `generator.py`. -/
def COLOR_WHITE : ℕ × ℕ × ℕ := (255, 255, 255)

def COLOR_BLACK : ℕ × ℕ × ℕ := (0, 0, 0)

/-- One PIL drawing call (`draw.line` / `draw.polygon`). -/
inductive DrawCmd where
  | line (p1 p2 : ℤ × ℤ) (fill : ℕ × ℕ × ℕ) (width : ℕ)
  | polygon (pts : List (ℤ × ℤ)) (outline : ℕ × ℕ × ℕ) (width : ℕ)
  deriving DecidableEq, Repr

def DrawCmd.isPolygon : DrawCmd → Bool
  | .polygon _ _ _ => true
  | _ => false

/-- The in-memory PIL image: `Image.new("RGB", (size, size), COLOR_WHITE)`
plus the drawing calls applied to it. -/
structure RasterImage where
  width : ℕ
  height : ℕ
  mode : String
  background : ℕ × ℕ × ℕ
  ops : List DrawCmd
  deriving DecidableEq, Repr

/-- Filesystem effects of `TessellationGenerator.generate`. -/
inductive FsEvent where
  | mkdirParent (path : String)
  | save (path : String) (img : RasterImage)
  deriving DecidableEq, Repr

/-- `_draw_triangular_pattern`: horizontal lines plus the two diagonal
families, each stepped by `cell_size = size // 10`.  A zero step makes
Python's `range` raise `ValueError`. -/
def triangularCmdsE (size lw : ℕ) : Except String (List DrawCmd) :=
  let cell := size / 10
  if cell = 0 then .error "range() arg 3 must not be zero"
  else .ok (
    (pyRange 0 ((size : ℤ) + 1) (cell : ℤ)).map
      (fun i => DrawCmd.line (0, i) ((size : ℤ), i) COLOR_BLACK lw) ++
    (pyRange (-(size : ℤ)) ((size : ℤ) + 1) (cell : ℤ)).map
      (fun i => DrawCmd.line (0, i + (size : ℤ)) ((size : ℤ), i) COLOR_BLACK lw) ++
    (pyRange (-(size : ℤ)) ((size : ℤ) + 1) (cell : ℤ)).map
      (fun i => DrawCmd.line (0, i) ((size : ℤ), i + (size : ℤ)) COLOR_BLACK lw))

/-- `_draw_square_pattern`: horizontal and vertical grid lines. -/
def squareCmdsE (size lw : ℕ) : Except String (List DrawCmd) :=
  let cell := size / 10
  if cell = 0 then .error "range() arg 3 must not be zero"
  else .ok (
    (pyRange 0 ((size : ℤ) + 1) (cell : ℤ)).map
      (fun i => DrawCmd.line (0, i) ((size : ℤ), i) COLOR_BLACK lw) ++
    (pyRange 0 ((size : ℤ) + 1) (cell : ℤ)).map
      (fun i => DrawCmd.line (i, 0) (i, (size : ℤ)) COLOR_BLACK lw))

/-- `_draw_hexagon`: a 6-vertex polygon with vertices at
`(cx + int(r·cos(πi/3)), cy + int(r·sin(πi/3)))`. -/
def drawHexagon (T : Trig) (cx cy : ℤ) (r lw : ℕ) : DrawCmd :=
  .polygon ((List.range 6).map (fun i =>
    (cx + pytrunc ((r : ℚ) * T.cos (T.pi / 3 * (i : ℚ))),
     cy + pytrunc ((r : ℚ) * T.sin (T.pi / 3 * (i : ℚ)))))) COLOR_BLACK lw

/-- `_draw_hexagonal_pattern`.  `row_height = int(3·r/2)` is `3*r/2` in
exact arithmetic; `col_width = int(np.sqrt(3)·r)` is modelled exactly as
`⌊√(3r²)⌋ = Nat.sqrt (3*r*r)`.  When `row_height` is `0` (i.e. `size < 10`)
the division `size // row_height` raises `ZeroDivisionError`. -/
def hexagonalCmdsE (T : Trig) (size lw : ℕ) : Except String (List DrawCmd) :=
  let r := size / 10
  let rowHeight := 3 * r / 2
  let colWidth := Nat.sqrt (3 * r * r)
  if rowHeight = 0 then .error "integer division or modulo by zero"
  else if colWidth = 0 then .error "integer division or modulo by zero"
  else
    let numRows := size / rowHeight + 2
    let numCols := size / colWidth + 2
    .ok ((List.range numRows).flatMap (fun row =>
      (List.range numCols).map (fun col =>
        drawHexagon T ((col * colWidth + row % 2 * colWidth / 2 : ℕ) : ℤ)
          ((row * rowHeight : ℕ) : ℤ) r lw)))

/-- The dispatch in `TessellationGenerator.generate`: the blank image is
created first, then the pattern branch runs (an unknown name raises
`ValueError` before any filesystem access). -/
def dispatch (T : Trig) (size lw : ℕ) (p : String) : Except String RasterImage :=
  let mk := fun ops => RasterImage.mk size size "RGB" COLOR_WHITE ops
  if p = "triangular" then (triangularCmdsE size lw).map mk
  else if p = "square" then (squareCmdsE size lw).map mk
  else if p = "hexagonal" then (hexagonalCmdsE T size lw).map mk
  else .error ("Unknown pattern type: " ++ p)

/-- `TessellationGenerator.generate`: on success it creates the parent
directory and saves the image, returning the output path; on error the
filesystem log is unchanged.  `rng` threads the (never consulted)
process-wide random state. -/
def generate (T : Trig) (rng : ℕ) (size lw : ℕ) (p outputPath : String)
    (fs : List FsEvent) : Except String String × List FsEvent :=
  match dispatch T size lw p with
  | .error e => (.error e, fs)
  | .ok img => (.ok outputPath, fs ++ [.mkdirParent outputPath, .save outputPath img])

end RasterGen

namespace SvgGen

/-!
Embedding of `src/tessellations/core/svg_generator.py`
(`ComplexSVGTessellationGenerator`, eight patterns).

The composite-drawing helpers `_draw_islamic_star`,
`_draw_celtic_knot_element1..4`, `_draw_floral_element` and
`_draw_escher_fish` take the accumulated document as a parameter and do
`svg += ...` on it; Python strings are immutable, so this rebinds the
local name only and the caller's buffer is unchanged — the net
contribution of every such call to the document is empty.  The helpers
are embedded separately below as the element lists they build locally.
-/

/-- Constructor state of `ComplexSVGTessellationGenerator`: `line_width`
(a float used only via string interpolation) and the two colors are kept
as the interpolated text. -/
structure Config where
  size : ℕ
  line_width : String
  stroke_color : String
  background_color : String
  deriving DecidableEq, Repr

/-- The constructor defaults (`800`, `1.0`, `"#000000"`, `"#FFFFFF"`). -/
def defaultCfg : Config := ⟨800, "1.0", "#000000", "#FFFFFF"⟩

/-- `_svg_header`. -/
def svgHeader (size : ℕ) (bg : String) : String :=
  "<?xml version=\"1.0\" encoding=\"UTF-8\" standalone=\"no\"?>\n" ++
  "<svg width=\"" ++ natStr size ++ "\" height=\"" ++ natStr size ++
    "\" xmlns=\"http://www.w3.org/2000/svg\">\n" ++
  "<desc>Complex Tessellation Pattern</desc>\n" ++
  "<rect width=\"" ++ natStr size ++ "\" height=\"" ++ natStr size ++
    "\" fill=\"" ++ bg ++ "\"/>\n"

/-- `_svg_footer`. -/
def svgFooter : String := "</svg>"

/-- The style-carrying group opening emitted by every pattern method. -/
def groupOpen (sc lw : String) : String :=
  "<g stroke=\"" ++ sc ++ "\" stroke-width=\"" ++ lw ++ "\" fill=\"none\">\n"

/-- A complete document: header, style group, rendered elements, close. -/
def mkDoc (cfg : Config) (es : List SvgElem) : String :=
  svgHeader cfg.size cfg.background_color ++
    groupOpen cfg.stroke_color cfg.line_width ++
    renderElems es ++ "</g>\n" ++ svgFooter

/-- `_generate_triangular_pattern` body (element part). -/
def triangularElemsE (size : ℕ) : Except String (List SvgElem) :=
  let cell := size / 10
  if cell = 0 then .error "range() arg 3 must not be zero"
  else .ok (
    (pyRange 0 ((size : ℤ) + 1) (cell : ℤ)).map
      (fun i => SvgElem.line 0 (i : ℚ) (size : ℚ) (i : ℚ)) ++
    (pyRange (-(size : ℤ)) ((size : ℤ) + 1) (cell : ℤ)).map
      (fun i => SvgElem.line 0 ((i : ℚ) + (size : ℚ)) (size : ℚ) (i : ℚ)) ++
    (pyRange (-(size : ℤ)) ((size : ℤ) + 1) (cell : ℤ)).map
      (fun i => SvgElem.line 0 (i : ℚ) (size : ℚ) ((i : ℚ) + (size : ℚ))))

/-- `_generate_square_pattern` body (element part). -/
def squareElemsE (size : ℕ) : Except String (List SvgElem) :=
  let cell := size / 10
  if cell = 0 then .error "range() arg 3 must not be zero"
  else .ok (
    (pyRange 0 ((size : ℤ) + 1) (cell : ℤ)).map
      (fun i => SvgElem.line 0 (i : ℚ) (size : ℚ) (i : ℚ)) ++
    (pyRange 0 ((size : ℤ) + 1) (cell : ℤ)).map
      (fun i => SvgElem.line (i : ℚ) 0 (i : ℚ) (size : ℚ)))

/-- One hexagon of `_generate_hexagonal_pattern`: vertices
`(cx + int(r·cos(πi/3)), cy + int(r·sin(πi/3)))`. -/
def hexPolygon (T : Trig) (cx cy : ℤ) (r : ℕ) : SvgElem :=
  .polygon ((List.range 6).map (fun i =>
    ((cx + pytrunc ((r : ℚ) * T.cos (T.pi / 3 * (i : ℚ))) : ℤ),
     (cy + pytrunc ((r : ℚ) * T.sin (T.pi / 3 * (i : ℚ))) : ℤ))))

/-- `_generate_hexagonal_pattern` body (element part); same geometry as the
raster engine (`row_height = int(3r/2)`, `col_width = int(√3·r)` modelled
exactly as `Nat.sqrt (3r²)`); `size // row_height` raises
`ZeroDivisionError` when `size < 10`. -/
def hexagonalElemsE (T : Trig) (size : ℕ) : Except String (List SvgElem) :=
  let r := size / 10
  let rowHeight := 3 * r / 2
  let colWidth := Nat.sqrt (3 * r * r)
  if rowHeight = 0 then .error "integer division or modulo by zero"
  else if colWidth = 0 then .error "integer division or modulo by zero"
  else
    let numRows := size / rowHeight + 2
    let numCols := size / colWidth + 2
    .ok ((List.range numRows).flatMap (fun row =>
      (List.range numCols).map (fun col =>
        hexPolygon T ((col * colWidth + row % 2 * colWidth / 2 : ℕ) : ℤ)
          ((row * rowHeight : ℕ) : ℤ) r)))

/-- The element list `_draw_islamic_star` builds into its local buffer (a
16-vertex 8-pointed star polygon, inner radius `0.4·outer`, then 8 radial
lines to `0.8·inner`); this list never reaches the caller's document. -/
def drawIslamicStarElems (T : Trig) (x y : ℤ) (size : ℕ) : List SvgElem :=
  let cx : ℚ := (x : ℚ) + (size / 2 : ℕ)
  let cy : ℚ := (y : ℚ) + (size / 2 : ℕ)
  let outer : ℚ := ((size / 2 : ℕ) : ℚ)
  let inner : ℚ := outer * (2 / 5)
  [SvgElem.polygon ((List.range 8).flatMap (fun i =>
    [(cx + outer * T.cos (T.pi / 4 * (i : ℚ)),
      cy + outer * T.sin (T.pi / 4 * (i : ℚ))),
     (cx + inner * T.cos (T.pi / 4 * ((i : ℚ) + 1 / 2)),
      cy + inner * T.sin (T.pi / 4 * ((i : ℚ) + 1 / 2)))]))] ++
  (List.range 8).map (fun i =>
    SvgElem.line cx cy
      (cx + inner * (4 / 5) * T.cos (T.pi / 4 * (i : ℚ)))
      (cy + inner * (4 / 5) * T.sin (T.pi / 4 * (i : ℚ))))

/-- `_generate_islamic_stars_pattern` body (element part).  The 5×5 star
loop calls `_draw_islamic_star(svg, …)` whose appends affect only the
helper's local copy, so each visited cell contributes nothing; what
remains are the horizontal, vertical and diagonal connecting lines. -/
def islamicStarsElems (size : ℕ) : List SvgElem :=
  let tile := size / 4
  ((List.range 5).flatMap (fun row => (List.range 5).flatMap (fun col =>
    if (row + col) % 2 = 0 then ([] : List SvgElem) else []))) ++
  (List.range 6).map (fun row =>
    SvgElem.line 0 (((row * tile : ℤ) - (tile / 2 : ℕ) : ℤ) : ℚ)
      (size : ℚ) (((row * tile : ℤ) - (tile / 2 : ℕ) : ℤ) : ℚ)) ++
  (List.range 6).map (fun col =>
    SvgElem.line (((col * tile : ℤ) - (tile / 2 : ℕ) : ℤ) : ℚ) 0
      (((col * tile : ℤ) - (tile / 2 : ℕ) : ℤ) : ℚ) (size : ℚ)) ++
  (List.range 11).flatMap (fun k =>
    let i : ℤ := (k : ℤ) - 5
    [SvgElem.line 0 (((i + 5) * tile : ℤ) : ℚ) (size : ℚ) ((i * tile : ℤ) : ℚ),
     SvgElem.line 0 ((i * tile : ℤ) : ℚ) (size : ℚ) (((i + 5) * tile : ℤ) : ℚ)])

/-- `_generate_penrose_pattern` body: 10 fan triangles, 10 outward
triangles and 10 four-vertex rhombi around the canvas center. -/
def penroseElems (T : Trig) (size : ℕ) : List SvgElem :=
  let cx : ℚ := ((size / 2 : ℕ) : ℚ)
  let cy : ℚ := ((size / 2 : ℕ) : ℚ)
  let radius : ℚ := (size : ℚ) * (9 / 20)
  (List.range 10).map (fun i =>
    let a1 := 2 * T.pi * (i : ℚ) / 10
    let a2 := 2 * T.pi * ((i : ℚ) + 1 / 2) / 10
    SvgElem.polygon [(cx, cy),
      (cx + radius * T.cos a1, cy + radius * T.sin a1),
      (cx + radius * (2 / 5) * T.cos a2, cy + radius * (2 / 5) * T.sin a2)]) ++
  (List.range 10).map (fun i =>
    let a1 := 2 * T.pi * (i : ℚ) / 10
    let a2 := 2 * T.pi * ((i : ℚ) + 1) / 10
    SvgElem.polygon [
      (cx + radius * T.cos a1, cy + radius * T.sin a1),
      (cx + radius * T.cos a2, cy + radius * T.sin a2),
      (cx + radius * (6 / 5) * T.cos ((a1 + a2) / 2),
       cy + radius * (6 / 5) * T.sin ((a1 + a2) / 2))]) ++
  (List.range 10).map (fun i =>
    let a1 := 2 * T.pi * (i : ℚ) / 10
    let a2 := 2 * T.pi * ((i : ℚ) + 1) / 10
    let am := (a1 + a2) / 2
    SvgElem.polygon [(cx, cy),
      (cx + radius * (3 / 5) * T.cos a1, cy + radius * (3 / 5) * T.sin a1),
      (cx + radius * (9 / 10) * T.cos am, cy + radius * (9 / 10) * T.sin am),
      (cx + radius * (3 / 5) * T.cos a2, cy + radius * (3 / 5) * T.sin a2)])

/-- The element list `_draw_celtic_knot_element1` builds into its local
buffer: two cubic-curve paths and a center circle. -/
def drawCelticKnotElement1 (x y s : ℚ) : List SvgElem :=
  let r := s / 4
  let cp := s / 3
  [SvgElem.path [.moveTo (x + r) (y + r),
     .cubicTo (x + r - cp) (y + r + cp) (x + s - r - cp) (y + s - r - cp)
       (x + s - r) (y + s - r)],
   SvgElem.path [.moveTo (x + r) (y + s - r),
     .cubicTo (x + r + cp) (y + s - r - cp) (x + s - r - cp) (y + r + cp)
       (x + s - r) (y + r)],
   SvgElem.circle (x + s / 2) (y + s / 2) (r / 2)]

/-- The element list `_draw_celtic_knot_element2` builds into its local
buffer: two circles joined by three arcs. -/
def drawCelticKnotElement2 (x y s : ℚ) : List SvgElem :=
  let cx := x + s / 2
  let cy := y + s / 2
  let r := s * (2 / 5)
  [SvgElem.circle (cx - s / 6) cy (r / 2),
   SvgElem.circle (cx + s / 6) cy (r / 2),
   SvgElem.path [.moveTo (cx - s / 6 + r / 2) cy,
     .arcTo r r false true (cx + s / 6 - r / 2) cy],
   SvgElem.path [.moveTo (cx + s / 6 - r / 2) cy,
     .arcTo (r / 2) (r / 2) false false (cx + s / 6 + r / 2) cy],
   SvgElem.path [.moveTo (cx + s / 6 + r / 2) cy,
     .arcTo r r false true (cx - s / 6 + r / 2) cy]]

/-- The element list `_draw_celtic_knot_element3` builds into its local
buffer: one 16-vertex cross/interlace polygon. -/
def drawCelticKnotElement3 (x y s : ℚ) : List SvgElem :=
  let cx := x + s / 2
  let cy := y + s / 2
  let hw := s * (1 / 10)
  [SvgElem.polygon [
    (x + hw, y + hw), (cx - hw, cy - hw), (cx + hw, cy - hw),
    (x + s - hw, y + hw), (x + s - hw, y + 3 * hw), (cx + hw, cy - hw),
    (cx + hw, cy + hw), (x + s - hw, y + s - 3 * hw),
    (x + s - hw, y + s - hw), (cx + hw, cy + hw), (cx - hw, cy + hw),
    (x + hw, y + s - hw), (x + hw, y + s - 3 * hw), (cx - hw, cy + hw),
    (cx - hw, cy - hw), (x + hw, y + 3 * hw)]]

/-- The element list `_draw_celtic_knot_element4` builds into its local
buffer: two 41-point spiral paths. -/
def drawCelticKnotElement4 (T : Trig) (x y s : ℚ) : List SvgElem :=
  let cx := x + s / 2
  let cy := y + s / 2
  let maxR := s * (2 / 5)
  let minR := s * (1 / 10)
  [0, 1].map (fun (k : ℕ) =>
    let startAngle := (k : ℚ) * T.pi
    SvgElem.path ((List.range 41).map (fun i =>
      let t : ℚ := (i : ℚ) / 40
      let radius := maxR - (maxR - minR) * t
      let angle := startAngle + 3 * 2 * T.pi * t
      let px := cx + radius * T.cos angle
      let py := cy + radius * T.sin angle
      if i = 0 then PathCmd.moveTo px py else PathCmd.lineTo px py)))

/-- `_generate_celtic_knots_pattern` body (element part): all four helper
calls mutate only their local copy of the buffer, so every cell of the 8×8
grid contributes nothing and the group body is empty. -/
def celticKnotsElems (size : ℕ) : List SvgElem :=
  (List.range 8).flatMap (fun row => (List.range 8).flatMap (fun col =>
    ([] : List SvgElem)))

/-- `_generate_floral_pattern` body (element part): the
`_draw_floral_element(svg, …)` calls are discarded, so the 7×7 grid
contributes nothing. -/
def floralElems (size : ℕ) : List SvgElem :=
  (List.range 7).flatMap (fun row => (List.range 7).flatMap (fun col =>
    ([] : List SvgElem)))

/-- `_generate_escher_pattern` body (element part): the
`_draw_escher_fish(svg, …)` calls are discarded, so the 6×6 grid
contributes nothing. -/
def escherElems (size : ℕ) : List SvgElem :=
  (List.range 6).flatMap (fun row => (List.range 6).flatMap (fun col =>
    ([] : List SvgElem)))

/-- The pattern dispatch of `generate` at the element level. -/
def patternElemsE (T : Trig) (cfg : Config) (p : String) :
    Except String (List SvgElem) :=
  if p = "triangular" then triangularElemsE cfg.size
  else if p = "square" then squareElemsE cfg.size
  else if p = "hexagonal" then hexagonalElemsE T cfg.size
  else if p = "islamic_stars" then .ok (islamicStarsElems cfg.size)
  else if p = "penrose" then .ok (penroseElems T cfg.size)
  else if p = "celtic_knots" then .ok (celticKnotsElems cfg.size)
  else if p = "floral" then .ok (floralElems cfg.size)
  else if p = "escher" then .ok (escherElems cfg.size)
  else .error ("Unknown pattern type: " ++ p)

/-- The document produced by `generate` for a pattern name. -/
def dispatch (T : Trig) (cfg : Config) (p : String) : Except String String :=
  (patternElemsE T cfg p).map (mkDoc cfg)

/-- The supported pattern names, in dispatch order. -/
def supported : List String :=
  ["triangular", "square", "hexagonal", "islamic_stars", "penrose",
   "celtic_knots", "floral", "escher"]

/-- `ComplexSVGTessellationGenerator.generate`: on success it creates the
parent directory and writes the document, returning the output path; on
error the filesystem log is unchanged. -/
def generate (T : Trig) (rng : ℕ) (cfg : Config) (p outputPath : String)
    (fs : List FsEvent) : Except String String × List FsEvent :=
  match dispatch T cfg p with
  | .error e => (.error e, fs)
  | .ok doc => (.ok outputPath, fs ++ [.mkdirParent outputPath, .write outputPath doc])

end SvgGen

namespace ComplexSvgGen

/-!
Embedding of `src/tessellations/core/complex_svg_generator.py` (the second
class named `ComplexSVGTessellationGenerator`; supports `hexagonal` and
`floral` only).  Unlike `svg_generator.py`, its floral generator threads
the buffer correctly (`svg = self._draw_floral_element(svg, …)`), so the
floral elements do reach the document.
-/

/-- Constructor state (same fields and defaults as `SvgGen.Config`). -/
structure Config where
  size : ℕ
  line_width : String
  stroke_color : String
  background_color : String
  deriving DecidableEq, Repr

def defaultCfg : Config := ⟨800, "1.0", "#000000", "#FFFFFF"⟩

/-- `_svg_header` (identical text to `SvgGen.svgHeader`). -/
def svgHeader (size : ℕ) (bg : String) : String :=
  "<?xml version=\"1.0\" encoding=\"UTF-8\" standalone=\"no\"?>\n" ++
  "<svg width=\"" ++ natStr size ++ "\" height=\"" ++ natStr size ++
    "\" xmlns=\"http://www.w3.org/2000/svg\">\n" ++
  "<desc>Complex Tessellation Pattern</desc>\n" ++
  "<rect width=\"" ++ natStr size ++ "\" height=\"" ++ natStr size ++
    "\" fill=\"" ++ bg ++ "\"/>\n"

def svgFooter : String := "</svg>"

def groupOpen (sc lw : String) : String :=
  "<g stroke=\"" ++ sc ++ "\" stroke-width=\"" ++ lw ++ "\" fill=\"none\">\n"

def mkDoc (cfg : Config) (es : List SvgElem) : String :=
  svgHeader cfg.size cfg.background_color ++
    groupOpen cfg.stroke_color cfg.line_width ++
    renderElems es ++ "</g>\n" ++ svgFooter

/-- `_generate_hexagonal_pattern` body (element part); line-for-line the
same computation as `SvgGen.hexagonalElemsE`. -/
def hexagonalElemsE (T : Trig) (size : ℕ) : Except String (List SvgElem) :=
  let r := size / 10
  let rowHeight := 3 * r / 2
  let colWidth := Nat.sqrt (3 * r * r)
  if rowHeight = 0 then .error "integer division or modulo by zero"
  else if colWidth = 0 then .error "integer division or modulo by zero"
  else
    let numRows := size / rowHeight + 2
    let numCols := size / colWidth + 2
    .ok ((List.range numRows).flatMap (fun row =>
      (List.range numCols).map (fun col =>
        SvgGen.hexPolygon T ((col * colWidth + row % 2 * colWidth / 2 : ℕ) : ℤ)
          ((row * rowHeight : ℤ)) r)))

/-- `_draw_floral_element`: 8 petal paths (paired quadratic curves, control
angles `± π/8` off the petal axis), a center circle of radius `0.1·size`,
and 8 stamen circles of radius `0.02·size` at the half-angles. -/
def drawFloralElement (T : Trig) (x y s : ℚ) : List SvgElem :=
  let cx := x + s / 2
  let cy := y + s / 2
  let petal := s * (2 / 5)
  (List.range 8).map (fun i =>
    let angle := 2 * T.pi * (i : ℚ) / 8
    let x1 := cx + petal * (1 / 2) * T.cos angle
    let y1 := cy + petal * (1 / 2) * T.sin angle
    let c1x := cx + petal * T.cos (angle + T.pi / 8)
    let c1y := cy + petal * T.sin (angle + T.pi / 8)
    let c2x := cx + petal * T.cos (angle - T.pi / 8)
    let c2y := cy + petal * T.sin (angle - T.pi / 8)
    SvgElem.path [.moveTo cx cy, .quadTo c1x c1y x1 y1, .quadTo c2x c2y cx cy]) ++
  [SvgElem.circle cx cy (s * (1 / 10))] ++
  (List.range 8).map (fun i =>
    let angle := 2 * T.pi * ((i : ℚ) + 1 / 2) / 8
    SvgElem.circle (cx + s * (3 / 20) * T.cos angle)
      (cy + s * (3 / 20) * T.sin angle) (s * (1 / 50)))

/-- `_generate_floral_pattern` body (element part): a 6×6 grid of floral
elements, buffer threaded correctly. -/
def floralElems (T : Trig) (size : ℕ) : List SvgElem :=
  let cell := size / 6
  (List.range 6).flatMap (fun row => (List.range 6).flatMap (fun col =>
    drawFloralElement T ((col * cell : ℕ) : ℚ) ((row * cell : ℕ) : ℚ) (cell : ℚ)))

/-- The pattern dispatch of `generate` at the element level. -/
def patternElemsE (T : Trig) (cfg : Config) (p : String) :
    Except String (List SvgElem) :=
  if p = "hexagonal" then hexagonalElemsE T cfg.size
  else if p = "floral" then .ok (floralElems T cfg.size)
  else .error ("Unknown pattern type: " ++ p)

def dispatch (T : Trig) (cfg : Config) (p : String) : Except String String :=
  (patternElemsE T cfg p).map (mkDoc cfg)

def supported : List String := ["hexagonal", "floral"]

/-- `generate` of `complex_svg_generator.py`. -/
def generate (T : Trig) (rng : ℕ) (cfg : Config) (p outputPath : String)
    (fs : List FsEvent) : Except String String × List FsEvent :=
  match dispatch T cfg p with
  | .error e => (.error e, fs)
  | .ok doc => (.ok outputPath, fs ++ [.mkdirParent outputPath, .write outputPath doc])

end ComplexSvgGen

namespace Islamic

/-!
Embedding of `src/tessellations/core/islamic_pattern_generator.py`
(`IslamicPatternGenerator`).  `math.sqrt` appears only in
`_draw_diamond_connector` and is modelled via the abstract `Trig.sqrt`.

In `_draw_connecting_elements` (eight-fold) and
`_draw_ten_fold_connections` the return value of
`_draw_diamond_connector` is discarded and the local accumulator is never
extended, so those helpers return the empty string; only
`_draw_twelve_fold_connections` appends the connector polygons it builds.
-/

/-- Constructor state of `IslamicPatternGenerator` (pattern type is fixed
at construction, not per call). -/
structure Config where
  size : ℕ
  line_width : String
  stroke_color : String
  background_color : String
  pattern_type : String
  deriving DecidableEq, Repr

/-- Constructor defaults (`1000`, `1.0`, colors, `"eight_fold"`). -/
def defaultCfg : Config := ⟨1000, "1.0", "#000000", "#FFFFFF", "eight_fold"⟩

/-- `_svg_header` (this engine's header also declares a `viewBox`). -/
def svgHeader (size : ℕ) (bg : String) : String :=
  "<?xml version=\"1.0\" encoding=\"UTF-8\" standalone=\"no\"?>\n" ++
  "<svg width=\"" ++ natStr size ++ "\" height=\"" ++ natStr size ++
    "\" viewBox=\"0 0 " ++ natStr size ++ " " ++ natStr size ++
    "\" xmlns=\"http://www.w3.org/2000/svg\">\n" ++
  "<desc>Islamic Geometric Pattern</desc>\n" ++
  "<rect width=\"" ++ natStr size ++ "\" height=\"" ++ natStr size ++
    "\" fill=\"" ++ bg ++ "\"/>\n"

def svgFooter : String := "</svg>"

def groupOpen (sc lw : String) : String :=
  "<g stroke=\"" ++ sc ++ "\" stroke-width=\"" ++ lw ++ "\" fill=\"none\">\n"

def mkDoc (cfg : Config) (es : List SvgElem) : String :=
  svgHeader cfg.size cfg.background_color ++
    groupOpen cfg.stroke_color cfg.line_width ++
    renderElems es ++ "</g>\n" ++ svgFooter

/-- `_draw_decorative_arc`: an SVG arc path from `start_angle` to
`end_angle`; the large-arc flag is set when the span exceeds π. -/
def drawDecorativeArc (T : Trig) (cx cy radius a1 a2 : ℚ) : SvgElem :=
  .path [.moveTo (cx + radius * T.cos a1) (cy + radius * T.sin a1),
    .arcTo radius radius (decide (a2 - a1 > T.pi)) true
      (cx + radius * T.cos a2) (cy + radius * T.sin a2)]

/-- `_draw_star_interior`: an inscribed `points`-gon, and per vertex a
radial line to the center plus a decorative arc at `0.7·radius`. -/
def drawStarInterior (T : Trig) (cx cy radius : ℚ) (points : ℕ) : List SvgElem :=
  [SvgElem.polygon ((List.range points).map (fun i =>
    (cx + radius * T.cos (2 * T.pi * (i : ℚ) / (points : ℚ)),
     cy + radius * T.sin (2 * T.pi * (i : ℚ) / (points : ℚ)))))] ++
  (List.range points).flatMap (fun i =>
    let a1 := 2 * T.pi * (i : ℚ) / (points : ℚ)
    let a2 := 2 * T.pi * (((i + 1) % points : ℕ) : ℚ) / (points : ℚ)
    [SvgElem.line cx cy (cx + radius * T.cos a1) (cy + radius * T.sin a1),
     drawDecorativeArc T cx cy (radius * (7 / 10)) a1 a2])

/-- `_draw_eight_pointed_star`: a 16-vertex star polygon (outer radius
`0.45·size`, mid radius `0.35·size`), interior detail at `0.2·size`, and
8 decorative radial lines. -/
def drawEightPointedStar (T : Trig) (x y s : ℚ) : List SvgElem :=
  let cx := x + s / 2
  let cy := y + s / 2
  let outer := s * (9 / 20)
  let mid := s * (7 / 20)
  let inner := s * (1 / 5)
  [SvgElem.polygon ((List.range 8).flatMap (fun i =>
    [(cx + outer * T.cos (T.pi / 4 * (i : ℚ)),
      cy + outer * T.sin (T.pi / 4 * (i : ℚ))),
     (cx + mid * T.cos (T.pi / 4 * ((i : ℚ) + 1 / 2)),
      cy + mid * T.sin (T.pi / 4 * ((i : ℚ) + 1 / 2)))]))] ++
  drawStarInterior T cx cy inner 8 ++
  (List.range 8).map (fun i =>
    let a := T.pi / 4 * (i : ℚ)
    SvgElem.line (cx + inner * (2 / 5) * T.cos a) (cy + inner * (2 / 5) * T.sin a)
      (cx + mid * (4 / 5) * T.cos a) (cy + mid * (4 / 5) * T.sin a))

/-- `_draw_octagon_grid`: an octagon at `0.3·size` radius plus its four
antipodal crossing lines. -/
def drawOctagonGrid (T : Trig) (x y s : ℚ) : List SvgElem :=
  let cx := x + s / 2
  let cy := y + s / 2
  let r := s * (3 / 10)
  let pts := (List.range 8).map (fun i =>
    (cx + r * T.cos (T.pi / 4 * (i : ℚ)), cy + r * T.sin (T.pi / 4 * (i : ℚ))))
  [SvgElem.polygon pts] ++
  (List.range 4).map (fun i =>
    let p1 := pts.getD i (0, 0)
    let p2 := pts.getD (i + 4) (0, 0)
    SvgElem.line p1.1 p1.2 p2.1 p2.2)

/-- `_draw_diamond_connector`: the 4-vertex rhombus between `(x1,y1)` and
`(x2,y2)` with half-width `width`, perpendicular to the segment.  (Its
`svg` parameter is ignored by the source, which only returns the polygon
text.) -/
def drawDiamondConnector (T : Trig) (x1 y1 x2 y2 width : ℚ) : SvgElem :=
  let mx := (x1 + x2) / 2
  let my := (y1 + y2) / 2
  let dx := x2 - x1
  let dy := y2 - y1
  let length := T.sqrt (dx * dx + dy * dy)
  let px := -dy / length
  let py := dx / length
  .polygon [(x1, y1), (mx + width * px, my + width * py), (x2, y2),
    (mx - width * px, my - width * py)]

/-- `_draw_connecting_elements` (eight-fold): every
`_draw_diamond_connector` return value is discarded and the accumulator
stays `""`, so each of the 5×5 cells contributes nothing. -/
def drawConnectingElements (u : ℚ) : List SvgElem :=
  (List.range 5).flatMap (fun row => (List.range 5).flatMap (fun col =>
    ([] : List SvgElem)))

/-- `_generate_eight_fold_pattern` body (element part): a 6×6 grid of unit
squares (`unit_size = size/4`, rows and columns −1…4), each with an
8-pointed star and an octagon grid, then the (empty) connecting
elements. -/
def eightFoldElems (T : Trig) (size : ℕ) : List SvgElem :=
  let u : ℚ := (size : ℚ) / 4
  ((List.range 6).flatMap (fun ri => (List.range 6).flatMap (fun ci =>
    let x := ((ci : ℚ) - 1) * u
    let y := ((ri : ℚ) - 1) * u
    drawEightPointedStar T x y u ++ drawOctagonGrid T x y u))) ++
  drawConnectingElements u

/-- `_draw_ten_fold_interior`: inner pentagon at `0.5·radius` plus 15
internal star lines. -/
def drawTenFoldInterior (T : Trig) (cx cy radius : ℚ) : List SvgElem :=
  let inner := radius * (1 / 2)
  [SvgElem.polygon ((List.range 5).map (fun i =>
    (cx + inner * T.cos (2 * T.pi * (i : ℚ) / 5),
     cy + inner * T.sin (2 * T.pi * (i : ℚ) / 5))))] ++
  (List.range 5).flatMap (fun i =>
    let a1 := 2 * T.pi * (i : ℚ) / 5
    let x1 := cx + inner * T.cos a1
    let y1 := cy + inner * T.sin a1
    (List.range 3).map (fun j =>
      let at2 := 2 * T.pi * (((i + (j + 1)) % 5 : ℕ) : ℚ) / 5
      SvgElem.line x1 y1 (cx + inner * T.cos at2) (cy + inner * T.sin at2)))

/-- `_draw_ten_pointed_star`: 20-vertex star polygon, interior detail at
`0.25·size`, and the ten-fold-specific interior. -/
def drawTenPointedStar (T : Trig) (x y s : ℚ) : List SvgElem :=
  let cx := x + s / 2
  let cy := y + s / 2
  let outer := s * (9 / 20)
  let mid := s * (7 / 20)
  let inner := s * (1 / 4)
  [SvgElem.polygon ((List.range 10).flatMap (fun i =>
    [(cx + outer * T.cos (T.pi / 5 * (i : ℚ)),
      cy + outer * T.sin (T.pi / 5 * (i : ℚ))),
     (cx + mid * T.cos (T.pi / 5 * ((i : ℚ) + 1 / 2)),
      cy + mid * T.sin (T.pi / 5 * ((i : ℚ) + 1 / 2)))]))] ++
  drawStarInterior T cx cy inner 10 ++
  drawTenFoldInterior T cx cy inner

/-- `_draw_decagon_elements`: a decagon at `0.3·size` radius plus 20
five-fold interior lines. -/
def drawDecagonElements (T : Trig) (x y s : ℚ) : List SvgElem :=
  let cx := x + s / 2
  let cy := y + s / 2
  let r := s * (3 / 10)
  let pts := (List.range 10).map (fun i =>
    (cx + r * T.cos (T.pi / 5 * (i : ℚ)), cy + r * T.sin (T.pi / 5 * (i : ℚ))))
  [SvgElem.polygon pts] ++
  (List.range 5).flatMap (fun i =>
    let p1 := pts.getD (i * 2) (0, 0)
    (List.range 4).map (fun j =>
      let p2 := pts.getD (((i + (j + 1)) % 5) * 2) (0, 0)
      SvgElem.line p1.1 p1.2 p2.1 p2.2))

/-- `_draw_ten_fold_connections`: all connector return values are
discarded, so each of the 4×4 cells contributes nothing. -/
def drawTenFoldConnections (u : ℚ) : List SvgElem :=
  (List.range 4).flatMap (fun row => (List.range 4).flatMap (fun col =>
    ([] : List SvgElem)))

/-- `_generate_ten_fold_pattern` body (element part): 5×5 unit grid
(`unit_size = size/3`, rows and columns −1…3). -/
def tenFoldElems (T : Trig) (size : ℕ) : List SvgElem :=
  let u : ℚ := (size : ℚ) / 3
  ((List.range 5).flatMap (fun ri => (List.range 5).flatMap (fun ci =>
    let x := ((ci : ℚ) - 1) * u
    let y := ((ri : ℚ) - 1) * u
    drawTenPointedStar T x y u ++ drawDecagonElements T x y u))) ++
  drawTenFoldConnections u

/-- `_draw_twelve_fold_interior`: inner hexagon at `0.6·radius`, a
12-vertex interior star, and 6 decorative lines. -/
def drawTwelveFoldInterior (T : Trig) (cx cy radius : ℚ) : List SvgElem :=
  let inner := radius * (3 / 5)
  [SvgElem.polygon ((List.range 6).map (fun i =>
    (cx + inner * T.cos (2 * T.pi * (i : ℚ) / 6),
     cy + inner * T.sin (2 * T.pi * (i : ℚ) / 6)))),
   SvgElem.polygon ((List.range 6).flatMap (fun i =>
    [(cx + inner * T.cos (2 * T.pi * (i : ℚ) / 6),
      cy + inner * T.sin (2 * T.pi * (i : ℚ) / 6)),
     (cx + inner * (2 / 5) * T.cos (2 * T.pi * ((i : ℚ) + 1 / 2) / 6),
      cy + inner * (2 / 5) * T.sin (2 * T.pi * ((i : ℚ) + 1 / 2) / 6))]))] ++
  (List.range 6).map (fun i =>
    let i1 : ℕ := (i + 1) % 6
    let a1 := 2 * T.pi * (i : ℚ) / 6
    let a2 := 2 * T.pi * (i1 : ℚ) / 6
    SvgElem.line (cx + inner * (2 / 5) * T.cos a1) (cy + inner * (2 / 5) * T.sin a1)
      (cx + inner * (2 / 5) * T.cos a2) (cy + inner * (2 / 5) * T.sin a2))

/-- `_draw_twelve_pointed_star`: 24-vertex star polygon, interior detail
at `0.25·size`, and the twelve-fold-specific interior. -/
def drawTwelvePointedStar (T : Trig) (x y s : ℚ) : List SvgElem :=
  let cx := x + s / 2
  let cy := y + s / 2
  let outer := s * (9 / 20)
  let mid := s * (7 / 20)
  let inner := s * (1 / 4)
  [SvgElem.polygon ((List.range 12).flatMap (fun i =>
    [(cx + outer * T.cos (T.pi / 6 * (i : ℚ)),
      cy + outer * T.sin (T.pi / 6 * (i : ℚ))),
     (cx + mid * T.cos (T.pi / 6 * ((i : ℚ) + 1 / 2)),
      cy + mid * T.sin (T.pi / 6 * ((i : ℚ) + 1 / 2)))]))] ++
  drawStarInterior T cx cy inner 12 ++
  drawTwelveFoldInterior T cx cy inner

/-- `_draw_dodecagon_elements`: a dodecagon at `0.3·size` radius, 6
antipodal lines, and 4 further crossing lines. -/
def drawDodecagonElements (T : Trig) (x y s : ℚ) : List SvgElem :=
  let cx := x + s / 2
  let cy := y + s / 2
  let r := s * (3 / 10)
  let pts := (List.range 12).map (fun i =>
    (cx + r * T.cos (T.pi / 6 * (i : ℚ)), cy + r * T.sin (T.pi / 6 * (i : ℚ))))
  [SvgElem.polygon pts] ++
  (List.range 6).map (fun i =>
    let p1 := pts.getD i (0, 0)
    let p2 := pts.getD (i + 6) (0, 0)
    SvgElem.line p1.1 p1.2 p2.1 p2.2) ++
  (List.range 4).map (fun i =>
    let p1 := pts.getD (i * 3) (0, 0)
    let p2 := pts.getD ((i * 3 + 6) % 12) (0, 0)
    SvgElem.line p1.1 p1.2 p2.1 p2.2)

/-- `_draw_crossing_pattern`: 6 lines between antipodal points of a
6-point ring of radius `0.2·unit_size`. -/
def drawCrossingPattern (T : Trig) (cx cy u : ℚ) : List SvgElem :=
  let radius := u * (1 / 5)
  (List.range 6).map (fun i =>
    let i3 : ℕ := (i + 3) % 6
    let a1 := 2 * T.pi * (i : ℚ) / 6
    let a2 := 2 * T.pi * (i3 : ℚ) / 6
    SvgElem.line (cx + radius * T.cos a1) (cy + radius * T.sin a1)
      (cx + radius * T.cos a2) (cy + radius * T.sin a2))

/-- `_draw_twelve_fold_connections`: the only connections helper that
appends its connectors.  For each cell of a 4×4 grid it emits a
horizontal connector (when `col < 3`) from the unit center to the point
half a unit to the right, a vertical connector (when `row < 3`), and a
crossing pattern (when both). -/
def drawTwelveFoldConnections (T : Trig) (u : ℚ) : List SvgElem :=
  (List.range 4).flatMap (fun row => (List.range 4).flatMap (fun col =>
    let cx := (col : ℚ) * u + u / 2
    let cy := (row : ℚ) * u + u / 2
    (if col < 3 then
      [drawDiamondConnector T cx cy (cx + u / 2) cy (u * (3 / 20))] else []) ++
    (if row < 3 then
      [drawDiamondConnector T cx cy cx (cy + u / 2) (u * (3 / 20))] else []) ++
    (if col < 3 ∧ row < 3 then drawCrossingPattern T cx cy u else [])))

/-- `_generate_twelve_fold_pattern` body (element part). -/
def twelveFoldElems (T : Trig) (size : ℕ) : List SvgElem :=
  let u : ℚ := (size : ℚ) / 3
  ((List.range 5).flatMap (fun ri => (List.range 5).flatMap (fun ci =>
    let x := ((ci : ℚ) - 1) * u
    let y := ((ri : ℚ) - 1) * u
    drawTwelvePointedStar T x y u ++ drawDodecagonElements T x y u))) ++
  drawTwelveFoldConnections T u

/-- Dispatch on the constructor-fixed `pattern_type`. -/
def patternElemsE (T : Trig) (cfg : Config) : Except String (List SvgElem) :=
  if cfg.pattern_type = "eight_fold" then .ok (eightFoldElems T cfg.size)
  else if cfg.pattern_type = "ten_fold" then .ok (tenFoldElems T cfg.size)
  else if cfg.pattern_type = "twelve_fold" then .ok (twelveFoldElems T cfg.size)
  else .error ("Unknown pattern type: " ++ cfg.pattern_type)

def dispatch (T : Trig) (cfg : Config) : Except String String :=
  (patternElemsE T cfg).map (mkDoc cfg)

def supported : List String := ["eight_fold", "ten_fold", "twelve_fold"]

/-- `IslamicPatternGenerator.generate`. -/
def generate (T : Trig) (rng : ℕ) (cfg : Config) (outputPath : String)
    (fs : List FsEvent) : Except String String × List FsEvent :=
  match dispatch T cfg with
  | .error e => (.error e, fs)
  | .ok doc => (.ok outputPath, fs ++ [.mkdirParent outputPath, .write outputPath doc])

end Islamic

namespace SimpleSvg

/-!
Modelled from the spec: the class `SVGTessellationGenerator` (the simple
vector engine) is imported by `src/tessellations/cli/main.py` and
exercised by `tests/core/test_svg_generator.py`, but no definition of it
exists under `src/`.  Following spec §4.3 it has the same
`generate(pattern_name, path)` contract, supports exactly
{triangular, square, hexagonal} with tile math identical to §4.2 (hence
to `SvgGen`'s three grid patterns, whose element builders are reused
verbatim), emits element markup inside a stroked, unfilled group, and —
unlike the complex engine — writes no explicit background rectangle.
-/

/-- Modelled from the spec: constructor state of the missing
`SVGTessellationGenerator` — the CLI constructs it with `size` and
`line_width` only. -/
structure Config where
  size : ℕ
  line_width : String
  deriving DecidableEq, Repr

/-- Modelled from the spec (§6): header of the simple engine's document —
XML declaration and a root element declaring `size × size` dimensions and
the SVG namespace, with no background rectangle (§4.3). -/
def svgHeader (size : ℕ) : String :=
  "<?xml version=\"1.0\" encoding=\"UTF-8\" standalone=\"no\"?>\n" ++
  "<svg width=\"" ++ natStr size ++ "\" height=\"" ++ natStr size ++
    "\" xmlns=\"http://www.w3.org/2000/svg\">\n"

def svgFooter : String := "</svg>"

/-- Modelled from the spec (§4.3): the stroked, unfilled style group. -/
def groupOpen (lw : String) : String :=
  "<g stroke=\"#000000\" stroke-width=\"" ++ lw ++ "\" fill=\"none\">\n"

def mkDoc (cfg : Config) (es : List SvgElem) : String :=
  svgHeader cfg.size ++ groupOpen cfg.line_width ++
    renderElems es ++ "</g>\n" ++ svgFooter

/-- Modelled from the spec: supports exactly the three grid patterns with
tile math identical to the complex engine; anything else raises the
unsupported-pattern error. -/
def patternElemsE (T : Trig) (cfg : Config) (p : String) :
    Except String (List SvgElem) :=
  if p = "triangular" then SvgGen.triangularElemsE cfg.size
  else if p = "square" then SvgGen.squareElemsE cfg.size
  else if p = "hexagonal" then SvgGen.hexagonalElemsE T cfg.size
  else .error ("Unknown pattern type: " ++ p)

def dispatch (T : Trig) (cfg : Config) (p : String) : Except String String :=
  (patternElemsE T cfg p).map (mkDoc cfg)

def supported : List String := ["triangular", "square", "hexagonal"]

/-- Modelled from the spec: `generate` writes the complete document after
creating the parent directory, returning the output path. -/
def generate (T : Trig) (rng : ℕ) (cfg : Config) (p outputPath : String)
    (fs : List FsEvent) : Except String String × List FsEvent :=
  match dispatch T cfg p with
  | .error e => (.error e, fs)
  | .ok doc => (.ok outputPath, fs ++ [.mkdirParent outputPath, .write outputPath doc])

end SimpleSvg

/-- The raster engine's supported pattern names, in dispatch order. -/
def RasterGen.supported : List String := ["triangular", "square", "hexagonal"]

/-- `sub` occurs verbatim inside `doc`. -/
def containsSub (doc sub : String) : Prop := ∃ a b, doc = a ++ sub ++ b

/-- The number of elements satisfying `p` in a fallible element list
(`none` when the computation raised). -/
def exceptCount {α : Type} (p : α → Bool) (e : Except String (List α)) : Option ℕ :=
  e.toOption.map (List.countP p)

/-! ### Generic counting lemmas -/

theorem countP_flatMap {α β : Type} (p : β → Bool) (l : List α) (f : α → List β) :
    (l.flatMap f).countP p = (l.map (fun a => (f a).countP p)).sum := by
  induction l with
  | nil => rfl
  | cons a l ih => simp [List.flatMap_cons, List.countP_append, ih]

theorem countP_flatMap_zero {α β : Type} (p : β → Bool) (l : List α)
    (f : α → List β) (h : ∀ a ∈ l, (f a).countP p = 0) :
    (l.flatMap f).countP p = 0 := by
  rw [countP_flatMap]
  exact List.sum_eq_zero (by simpa using h)

theorem length_grid {β : Type} (R C : ℕ) (g : ℕ → ℕ → β) :
    ((List.range R).flatMap (fun r => (List.range C).map (g r))).length = R * C := by
  rw [List.length_flatMap]
  simp only [Function.comp_def, List.length_map, List.length_range]
  rw [List.map_const', List.sum_replicate, List.length_range, smul_eq_mul]

/-! ### Characters of the numeral printers -/

theorem digitChar_ne (n : ℕ) {c : Char} (hc : 58 ≤ c.toNat) :
    Char.ofNat (48 + n % 10) ≠ c := by
  have hd : n % 10 < 10 := Nat.mod_lt _ (by norm_num)
  have hval : (Char.ofNat (48 + n % 10)).toNat < 58 := by
    generalize n % 10 = d at hd
    interval_cases d <;> decide
  intro h
  rw [h] at hval
  omega

theorem count_natCharsGo (c : Char) (hc : 58 ≤ c.toNat) :
    ∀ fuel n acc, (natCharsGo fuel n acc).count c = acc.count c := by
  intro fuel
  induction fuel with
  | zero => intro n acc; rfl
  | succ fuel ih =>
    intro n acc
    have hne := digitChar_ne n hc
    rw [natCharsGo]
    by_cases h : n < 10
    · simp [h, List.count_cons, hne]
    · simp only [h, if_false]
      rw [ih]
      simp [List.count_cons, hne]

theorem count_natStr (c : Char) (hc : 58 ≤ c.toNat) (n : ℕ) :
    (natStr n).data.count c = 0 := by
  unfold natStr
  rw [count_natCharsGo c hc]
  rfl

/-- `'<'` has code 60, `'g'` has code 103: neither can occur in a numeral. -/
theorem count_lt_natStr (n : ℕ) : (natStr n).data.count '<' = 0 :=
  count_natStr '<' (by decide) n

theorem count_lt_qstr (q : ℚ) : (qstr q).data.count '<' = 0 := by
  unfold qstr
  show (((if q < 0 then "-" else "") ++ _ ++ _ : String)).data.count '<' = 0
  rw [String.data_append, String.data_append, List.count_append, List.count_append]
  rw [count_lt_natStr]
  by_cases h1 : q < 0 <;> by_cases h2 : q.den = 1 <;>
    simp [h1, h2, String.data_append, List.count_append, count_lt_natStr]

theorem count_str_append (c : Char) (s t : String) :
    (s ++ t).data.count c = s.data.count c + t.data.count c :=
  List.count_append c s.data t.data

theorem count_lt_renderPt (p : ℚ × ℚ) : (renderPt p).data.count '<' = 0 := by
  unfold renderPt
  simp only [count_str_append, count_lt_qstr]
  decide

theorem count_lt_renderPts (pts : List (ℚ × ℚ)) :
    (renderPts pts).data.count '<' = 0 := by
  induction pts with
  | nil => decide
  | cons p ps ih =>
    cases ps with
    | nil => rw [renderPts, count_lt_renderPt]
    | cons q qs =>
      rw [renderPts]
      simp only [count_str_append, count_lt_renderPt, ih]
      decide

theorem count_lt_renderCmd (cmd : PathCmd) : (renderCmd cmd).data.count '<' = 0 := by
  cases cmd with
  | arcTo rx ry la sw x y =>
    rw [renderCmd]
    cases la <;> cases sw <;>
      simp only [count_str_append, count_lt_qstr] <;> decide
  | closePath => decide
  | moveTo x y => rw [renderCmd]; simp only [count_str_append, count_lt_qstr]; decide
  | lineTo x y => rw [renderCmd]; simp only [count_str_append, count_lt_qstr]; decide
  | cubicTo a b c d x y =>
    rw [renderCmd]; simp only [count_str_append, count_lt_qstr]; decide
  | quadTo a b x y =>
    rw [renderCmd]; simp only [count_str_append, count_lt_qstr]; decide

theorem count_lt_renderCmds (cmds : List PathCmd) :
    (renderCmds cmds).data.count '<' = 0 := by
  induction cmds with
  | nil => decide
  | cons c cs ih =>
    show ((renderCmd c ++ renderCmds cs : String)).data.count '<' = 0
    rw [count_str_append, count_lt_renderCmd, ih]

theorem count_lt_renderElem (e : SvgElem) : (renderElem e).data.count '<' = 1 := by
  cases e with
  | line x1 y1 x2 y2 =>
    rw [renderElem]; simp only [count_str_append, count_lt_qstr]; decide
  | polygon pts =>
    rw [renderElem]; simp only [count_str_append, count_lt_qstr, count_lt_renderPts]; decide
  | circle cx cy r =>
    rw [renderElem]; simp only [count_str_append, count_lt_qstr]; decide
  | path cmds =>
    rw [renderElem]; simp only [count_str_append, count_lt_qstr, count_lt_renderCmds]; decide

theorem count_lt_renderElems (es : List SvgElem) :
    (renderElems es).data.count '<' = es.length := by
  induction es with
  | nil => decide
  | cons e es ih =>
    show ((renderElem e ++ renderElems es : String)).data.count '<' = es.length + 1
    rw [count_str_append, count_lt_renderElem, ih]
    omega

/-! ### Claim theorems -/

/-- C8: for every engine, every supported pattern, and every fixed
parameter set, two `generate` calls that differ only in the ambient
random-module state (which the sources import but never consult) produce
identical documents/images and identical filesystem effects: generation is
deterministic. -/
theorem c8_determinism (T : Trig) (rng1 rng2 size lw : ℕ)
    (cfg : SvgGen.Config) (ccfg : ComplexSvgGen.Config) (icfg : Islamic.Config)
    (p path : String) (fsR : List RasterGen.FsEvent) (fs1 fs2 fs3 : List FsEvent) :
    RasterGen.generate T rng1 size lw p path fsR =
      RasterGen.generate T rng2 size lw p path fsR ∧
    SvgGen.generate T rng1 cfg p path fs1 = SvgGen.generate T rng2 cfg p path fs1 ∧
    ComplexSvgGen.generate T rng1 ccfg p path fs2 =
      ComplexSvgGen.generate T rng2 ccfg p path fs2 ∧
    Islamic.generate T rng1 icfg path fs3 = Islamic.generate T rng2 icfg path fs3 :=
  ⟨rfl, rfl, rfl, rfl⟩

/-- C1: for every engine and every pattern name outside that engine's
supported set, `generate` returns the `Unknown pattern type` error and the
filesystem log is unchanged (no directory creation, no file write). -/
theorem c1_unsupported_pattern_error (T : Trig) (rng size lw : ℕ)
    (cfg : SvgGen.Config) (ccfg : ComplexSvgGen.Config) (icfg : Islamic.Config)
    (p path : String) (fsR : List RasterGen.FsEvent) (fs1 fs2 fs3 : List FsEvent)
    (h1 : p ∉ RasterGen.supported) (h2 : p ∉ SvgGen.supported)
    (h3 : p ∉ ComplexSvgGen.supported) (h4 : icfg.pattern_type ∉ Islamic.supported) :
    RasterGen.generate T rng size lw p path fsR =
      (.error ("Unknown pattern type: " ++ p), fsR) ∧
    SvgGen.generate T rng cfg p path fs1 =
      (.error ("Unknown pattern type: " ++ p), fs1) ∧
    ComplexSvgGen.generate T rng ccfg p path fs2 =
      (.error ("Unknown pattern type: " ++ p), fs2) ∧
    Islamic.generate T rng icfg path fs3 =
      (.error ("Unknown pattern type: " ++ icfg.pattern_type), fs3) := by
  simp only [RasterGen.supported, SvgGen.supported, ComplexSvgGen.supported,
    Islamic.supported, List.mem_cons, List.not_mem_nil, or_false, not_or] at h1 h2 h3 h4
  refine ⟨?_, ?_, ?_, ?_⟩
  · unfold RasterGen.generate RasterGen.dispatch
    rw [if_neg h1.1, if_neg h1.2.1, if_neg h1.2.2]
  · unfold SvgGen.generate SvgGen.dispatch SvgGen.patternElemsE
    rw [if_neg h2.1, if_neg h2.2.1, if_neg h2.2.2.1, if_neg h2.2.2.2.1,
      if_neg h2.2.2.2.2.1, if_neg h2.2.2.2.2.2.1, if_neg h2.2.2.2.2.2.2.1,
      if_neg h2.2.2.2.2.2.2.2]
    rfl
  · unfold ComplexSvgGen.generate ComplexSvgGen.dispatch ComplexSvgGen.patternElemsE
    rw [if_neg h3.1, if_neg h3.2]
    rfl
  · unfold Islamic.generate Islamic.dispatch Islamic.patternElemsE
    rw [if_neg h4.1, if_neg h4.2.1, if_neg h4.2.2]
    rfl

/-- C1 witness: the pattern name `"bogus"` is unsupported everywhere and
every engine rejects it with the unsupported-pattern error, leaving the
(empty) filesystem log unchanged. -/
theorem c1_witness :
    RasterGen.generate T0 0 800 2 "bogus" "out.png" [] =
      (.error "Unknown pattern type: bogus", []) ∧
    SvgGen.generate T0 0 SvgGen.defaultCfg "bogus" "out.svg" [] =
      (.error "Unknown pattern type: bogus", []) ∧
    ComplexSvgGen.generate T0 0 ComplexSvgGen.defaultCfg "bogus" "out.svg" [] =
      (.error "Unknown pattern type: bogus", []) ∧
    Islamic.generate T0 0 ⟨1000, "1.0", "#000000", "#FFFFFF", "bogus"⟩ "out.svg" [] =
      (.error "Unknown pattern type: bogus", []) := by
  have h := c1_unsupported_pattern_error T0 0 800 2 SvgGen.defaultCfg
    ComplexSvgGen.defaultCfg ⟨1000, "1.0", "#000000", "#FFFFFF", "bogus"⟩
    "bogus" "out.png" [] [] [] []
    (by decide) (by decide) (by decide) (by decide)
  exact ⟨h.1, h.2.1, h.2.2.1, h.2.2.2⟩

/-- C2 (evaluation at the failing input): for `islamic_stars` at size 400
the generated element list contains no polygon at all — all 34 elements
are the grid/diagonal connecting lines — although the (discarded)
`_draw_islamic_star` helper builds a 16-vertex star polygon and 8 radial
lines for each visited tile. -/
theorem c2_islamic_stars_not_emitted :
    (SvgGen.islamicStarsElems 400).countP SvgElem.isPolygon = 0 ∧
    (SvgGen.islamicStarsElems 400).length = 34 ∧
    (SvgGen.islamicStarsElems 400).countP SvgElem.isLine = 34 ∧
    (SvgGen.drawIslamicStarElems T0 0 0 200).countP (SvgElem.isPolyWith 16) = 1 ∧
    (SvgGen.drawIslamicStarElems T0 0 0 200).countP SvgElem.isLine = 8 := by
  decide

/-- C3: the `celtic_knots` pattern is supported, yet its generated
document's group body is empty: every cell of the 8×8 grid invokes one of
the four celtic-knot helpers, whose appended content (paths, circles, a
16-vertex polygon, spiral paths) is accumulated into a local value the
caller discards. -/
theorem c3_dropped_helper_content :
    "celtic_knots" ∈ SvgGen.supported ∧
    (∀ size : ℕ, SvgGen.celticKnotsElems size = []) ∧
    (∀ (T : Trig) (cfg : SvgGen.Config),
      SvgGen.dispatch T cfg "celtic_knots" = .ok (SvgGen.mkDoc cfg [])) ∧
    (∀ x y s : ℚ, (SvgGen.drawCelticKnotElement1 x y s).length = 3) ∧
    (∀ x y s : ℚ, (SvgGen.drawCelticKnotElement2 x y s).length = 5) ∧
    (∀ x y s : ℚ,
      (SvgGen.drawCelticKnotElement3 x y s).countP (SvgElem.isPolyWith 16) = 1) ∧
    (∀ (T : Trig) (x y s : ℚ), (SvgGen.drawCelticKnotElement4 T x y s).length = 2) :=
  ⟨by decide, fun _ => rfl, fun _ _ => rfl, fun _ _ _ => rfl, fun _ _ _ => rfl,
    fun _ _ _ => rfl, fun _ _ _ _ => rfl⟩

/-- C4: for every canvas size at which hexagonal generation succeeds
(equivalently `size ≥ 10`; below that the row-height division raises), the
number of hexagon polygons emitted equals
`(size/rowHeight + 2) * (size/colWidth + 2)` with `rowHeight = ⌊1.5r⌋`,
`colWidth = ⌊√3·r⌋ = Nat.sqrt (3r²)`, `r = ⌊size/10⌋`, identically in the
raster engine and both vector engines, and every emitted element is a
hexagon polygon. -/
theorem c4_hexagon_tile_count (T : Trig) (size lw : ℕ) (h : 10 ≤ size) :
    exceptCount RasterGen.DrawCmd.isPolygon (RasterGen.hexagonalCmdsE T size lw) =
      some ((size / (3 * (size / 10) / 2) + 2) *
        (size / Nat.sqrt (3 * (size / 10) * (size / 10)) + 2)) ∧
    exceptCount SvgElem.isPolygon (SvgGen.hexagonalElemsE T size) =
      some ((size / (3 * (size / 10) / 2) + 2) *
        (size / Nat.sqrt (3 * (size / 10) * (size / 10)) + 2)) ∧
    exceptCount SvgElem.isPolygon (ComplexSvgGen.hexagonalElemsE T size) =
      some ((size / (3 * (size / 10) / 2) + 2) *
        (size / Nat.sqrt (3 * (size / 10) * (size / 10)) + 2)) := by
  have hr1 : 1 ≤ size / 10 := (Nat.le_div_iff_mul_le (by norm_num)).mpr (by omega)
  have hrh : ¬ 3 * (size / 10) / 2 = 0 := by omega
  have hcw : ¬ Nat.sqrt (3 * (size / 10) * (size / 10)) = 0 := by
    have h3 : 1 ≤ 3 * (size / 10) * (size / 10) := by nlinarith
    have : 1 ≤ Nat.sqrt (3 * (size / 10) * (size / 10)) := by
      calc 1 = Nat.sqrt 1 := by simp
        _ ≤ _ := Nat.sqrt_le_sqrt h3
    omega
  refine ⟨?_, ?_, ?_⟩
  · simp only [RasterGen.hexagonalCmdsE]
    rw [if_neg hrh, if_neg hcw]
    show some _ = some _
    congr 1
    rw [List.countP_eq_length.mpr, length_grid]
    intro a ha
    simp only [List.mem_flatMap, List.mem_map, List.mem_range] at ha
    obtain ⟨row, -, col, -, rfl⟩ := ha
    rfl
  · simp only [SvgGen.hexagonalElemsE]
    rw [if_neg hrh, if_neg hcw]
    show some _ = some _
    congr 1
    rw [List.countP_eq_length.mpr, length_grid]
    intro a ha
    simp only [List.mem_flatMap, List.mem_map, List.mem_range] at ha
    obtain ⟨row, -, col, -, rfl⟩ := ha
    rfl
  · simp only [ComplexSvgGen.hexagonalElemsE]
    rw [if_neg hrh, if_neg hcw]
    show some _ = some _
    congr 1
    rw [List.countP_eq_length.mpr, length_grid]
    intro a ha
    simp only [List.mem_flatMap, List.mem_map, List.mem_range] at ha
    obtain ⟨row, -, col, -, rfl⟩ := ha
    rfl

/-- C4 witness: at size 400 all three engines emit exactly
`(400/60 + 2) * (400/69 + 2) = 56` hexagons. -/
theorem c4_witness :
    10 ≤ 400 ∧
    exceptCount RasterGen.DrawCmd.isPolygon (RasterGen.hexagonalCmdsE T0 400 2) = some 56 ∧
    exceptCount SvgElem.isPolygon (SvgGen.hexagonalElemsE T0 400) = some 56 ∧
    exceptCount SvgElem.isPolygon (ComplexSvgGen.hexagonalElemsE T0 400) = some 56 := by
  have h := c4_hexagon_tile_count T0 400 2 (by norm_num)
  refine ⟨by norm_num, ?_, ?_, ?_⟩
  · rw [h.1]; norm_num
  · rw [h.2.1]; norm_num
  · rw [h.2.2]; norm_num

/-- C5 (amended): for every supported (engine, pattern) pair and every
canvas size ≥ 10, `generate` completes without raising and returns the
given output path. -/

theorem c5_generate_succeeds (T : Trig) (rng size lw : ℕ) (h : 10 ≤ size)
    (lws sc bg p path : String) (fsR : List RasterGen.FsEvent)
    (fs1 fs2 fs3 : List FsEvent) :
    (p ∈ RasterGen.supported →
      (RasterGen.generate T rng size lw p path fsR).1 = .ok path) ∧
    (p ∈ SvgGen.supported →
      (SvgGen.generate T rng ⟨size, lws, sc, bg⟩ p path fs1).1 = .ok path) ∧
    (p ∈ ComplexSvgGen.supported →
      (ComplexSvgGen.generate T rng ⟨size, lws, sc, bg⟩ p path fs2).1 = .ok path) ∧
    (p ∈ Islamic.supported →
      (Islamic.generate T rng ⟨size, lws, sc, bg, p⟩ path fs3).1 = .ok path) := by
  have hr1 : 1 ≤ size / 10 := (Nat.le_div_iff_mul_le (by norm_num)).mpr (by omega)
  have hcell : ¬ size / 10 = 0 := by omega
  have hrh : ¬ 3 * (size / 10) / 2 = 0 := by omega
  have hcw : ¬ Nat.sqrt (3 * (size / 10) * (size / 10)) = 0 := by
    have h3 : 1 ≤ 3 * (size / 10) * (size / 10) := by nlinarith
    have : 1 ≤ Nat.sqrt (3 * (size / 10) * (size / 10)) := by
      calc 1 = Nat.sqrt 1 := by simp
        _ ≤ _ := Nat.sqrt_le_sqrt h3
    omega
  refine ⟨?_, ?_, ?_, ?_⟩
  · intro hp
    simp only [RasterGen.supported, List.mem_cons, List.not_mem_nil, or_false] at hp
    rcases hp with rfl | rfl | rfl <;>
      simp [RasterGen.generate, RasterGen.dispatch, RasterGen.triangularCmdsE,
        RasterGen.squareCmdsE, RasterGen.hexagonalCmdsE, Except.map, Except.map, hcell, hrh, hcw]
  · intro hp
    simp only [SvgGen.supported, List.mem_cons, List.not_mem_nil, or_false] at hp
    rcases hp with rfl | rfl | rfl | rfl | rfl | rfl | rfl | rfl <;>
      simp [SvgGen.generate, SvgGen.dispatch, SvgGen.patternElemsE,
        SvgGen.triangularElemsE, SvgGen.squareElemsE, SvgGen.hexagonalElemsE,
        Except.map, hcell, hrh, hcw]
  · intro hp
    simp only [ComplexSvgGen.supported, List.mem_cons, List.not_mem_nil, or_false] at hp
    rcases hp with rfl | rfl <;>
      simp [ComplexSvgGen.generate, ComplexSvgGen.dispatch,
        ComplexSvgGen.patternElemsE, ComplexSvgGen.hexagonalElemsE, Except.map, hcell, hrh, hcw]
  · intro hp
    simp only [Islamic.supported, List.mem_cons, List.not_mem_nil, or_false] at hp
    rcases hp with rfl | rfl | rfl <;>
      simp [Islamic.generate, Islamic.dispatch, Islamic.patternElemsE, Except.map]

/-- C5 witness: at size 10 the raster triangular pattern and the Islamic
twelve-fold pattern both generate successfully and return the output
path. -/
theorem c5_witness :
    (10 ≤ 10 ∧ "triangular" ∈ RasterGen.supported ∧
      (RasterGen.generate T0 0 10 2 "triangular" "o.png" []).1 = .ok "o.png") ∧
    ("twelve_fold" ∈ Islamic.supported ∧
      (Islamic.generate T0 0 ⟨10, "1.0", "#000000", "#FFFFFF", "twelve_fold"⟩
        "o.svg" []).1 = .ok "o.svg") := by
  constructor
  · exact ⟨by norm_num, by decide,
      (c5_generate_succeeds T0 0 10 2 (by norm_num) "1.0" "#000000" "#FFFFFF"
        "triangular" "o.png" [] [] [] []).1 (by decide)⟩
  · exact ⟨by decide,
      (c5_generate_succeeds T0 0 10 2 (by norm_num) "1.0" "#000000" "#FFFFFF"
        "twelve_fold" "o.svg" [] [] [] []).2.2.2 (by decide)⟩

/-- C5 counterexample: the claim asserts success for every size > 0, but at
size 5 (`cell_size = 5 // 10 = 0`) the raster triangular pattern raises
Python's zero-step `range` error before any file write. -/
theorem c5_counterexample :
    ("triangular" ∈ RasterGen.supported ∧ 0 < 5) ∧
    RasterGen.generate T0 0 5 2 "triangular" "out.png" [] =
      (.error "range() arg 3 must not be zero", []) :=
  ⟨by decide, rfl⟩

theorem count_lt_svgHeader (size : ℕ) (bg : String)
    (hbg : bg.data.count '<' = 0) :
    (SvgGen.svgHeader size bg).data.count '<' = 5 := by
  unfold SvgGen.svgHeader
  simp only [count_str_append, count_lt_natStr, hbg]
  decide

theorem count_lt_complexHeader (size : ℕ) (bg : String)
    (hbg : bg.data.count '<' = 0) :
    (ComplexSvgGen.svgHeader size bg).data.count '<' = 5 := by
  unfold ComplexSvgGen.svgHeader
  simp only [count_str_append, count_lt_natStr, hbg]
  decide

theorem count_lt_islamicHeader (size : ℕ) (bg : String)
    (hbg : bg.data.count '<' = 0) :
    (Islamic.svgHeader size bg).data.count '<' = 5 := by
  unfold Islamic.svgHeader
  simp only [count_str_append, count_lt_natStr, hbg]
  decide

theorem count_lt_groupOpen (sc lw : String) (hsc : sc.data.count '<' = 0)
    (hlw : lw.data.count '<' = 0) :
    (SvgGen.groupOpen sc lw).data.count '<' = 1 := by
  unfold SvgGen.groupOpen
  simp only [count_str_append, hsc, hlw]
  decide

theorem count_lt_complexGroupOpen (sc lw : String) (hsc : sc.data.count '<' = 0)
    (hlw : lw.data.count '<' = 0) :
    (ComplexSvgGen.groupOpen sc lw).data.count '<' = 1 := by
  unfold ComplexSvgGen.groupOpen
  simp only [count_str_append, hsc, hlw]
  decide

theorem count_lt_islamicGroupOpen (sc lw : String) (hsc : sc.data.count '<' = 0)
    (hlw : lw.data.count '<' = 0) :
    (Islamic.groupOpen sc lw).data.count '<' = 1 := by
  unfold Islamic.groupOpen
  simp only [count_str_append, hsc, hlw]
  decide

/-- C10: for every supported pattern of each SVG-producing engine and
every parameter set whose color/width strings contain no markup characters,
a successfully generated document decomposes as the fixed header (XML
declaration, root svg element with width and height equal to the
configured size, background rect filled with the background color),
exactly one style-carrying group that wraps all shape elements, the close
of that group and the final closing svg tag; counting `<` occurrences
shows the body consists of exactly the emitted shape elements and nothing
else (in particular no second group and no stray markup). -/
theorem c10_document_structure (T : Trig) (size : ℕ) (lw sc bg : String)
    (hlw : lw.data.count '<' = 0) (hsc : sc.data.count '<' = 0)
    (hbg : bg.data.count '<' = 0) :
    (∀ p ∈ SvgGen.supported, ∀ doc,
      SvgGen.dispatch T ⟨size, lw, sc, bg⟩ p = .ok doc →
      ∃ es, SvgGen.patternElemsE T ⟨size, lw, sc, bg⟩ p = .ok es ∧
        doc = SvgGen.svgHeader size bg ++ SvgGen.groupOpen sc lw ++
          renderElems es ++ "</g>\n" ++ SvgGen.svgFooter ∧
        doc.data.count '<' = 8 + es.length) ∧
    (∀ p ∈ ComplexSvgGen.supported, ∀ doc,
      ComplexSvgGen.dispatch T ⟨size, lw, sc, bg⟩ p = .ok doc →
      ∃ es, ComplexSvgGen.patternElemsE T ⟨size, lw, sc, bg⟩ p = .ok es ∧
        doc = ComplexSvgGen.svgHeader size bg ++ ComplexSvgGen.groupOpen sc lw ++
          renderElems es ++ "</g>\n" ++ ComplexSvgGen.svgFooter ∧
        doc.data.count '<' = 8 + es.length) ∧
    (∀ pt ∈ Islamic.supported, ∀ doc,
      Islamic.dispatch T ⟨size, lw, sc, bg, pt⟩ = .ok doc →
      ∃ es, Islamic.patternElemsE T ⟨size, lw, sc, bg, pt⟩ = .ok es ∧
        doc = Islamic.svgHeader size bg ++ Islamic.groupOpen sc lw ++
          renderElems es ++ "</g>\n" ++ Islamic.svgFooter ∧
        doc.data.count '<' = 8 + es.length) := by
  refine ⟨?_, ?_, ?_⟩
  · intro p hp doc hdoc
    cases he : SvgGen.patternElemsE T ⟨size, lw, sc, bg⟩ p with
    | error e => rw [SvgGen.dispatch, he] at hdoc; exact absurd hdoc (by simp [Except.map])
    | ok es =>
      rw [SvgGen.dispatch, he] at hdoc
      simp only [Except.map] at hdoc
      obtain rfl : SvgGen.mkDoc ⟨size, lw, sc, bg⟩ es = doc := by
        simpa using hdoc
      refine ⟨es, rfl, rfl, ?_⟩
      show (SvgGen.mkDoc ⟨size, lw, sc, bg⟩ es).data.count '<' = 8 + es.length
      unfold SvgGen.mkDoc
      simp only [count_str_append, count_lt_svgHeader size bg hbg,
        count_lt_groupOpen sc lw hsc hlw, count_lt_renderElems]
      show 5 + 1 + es.length + _ + _ = 8 + es.length
      have h1 : ("</g>\n").data.count '<' = 1 := by decide
      have h2 : (SvgGen.svgFooter).data.count '<' = 1 := by decide
      rw [h1, h2]
      omega
  · intro p hp doc hdoc
    cases he : ComplexSvgGen.patternElemsE T ⟨size, lw, sc, bg⟩ p with
    | error e => rw [ComplexSvgGen.dispatch, he] at hdoc; exact absurd hdoc (by simp [Except.map])
    | ok es =>
      rw [ComplexSvgGen.dispatch, he] at hdoc
      simp only [Except.map] at hdoc
      obtain rfl : ComplexSvgGen.mkDoc ⟨size, lw, sc, bg⟩ es = doc := by
        simpa using hdoc
      refine ⟨es, rfl, rfl, ?_⟩
      show (ComplexSvgGen.mkDoc ⟨size, lw, sc, bg⟩ es).data.count '<' = 8 + es.length
      unfold ComplexSvgGen.mkDoc
      simp only [count_str_append, count_lt_complexHeader size bg hbg,
        count_lt_complexGroupOpen sc lw hsc hlw, count_lt_renderElems]
      have h1 : ("</g>\n").data.count '<' = 1 := by decide
      have h2 : (ComplexSvgGen.svgFooter).data.count '<' = 1 := by decide
      rw [h1, h2]
      omega
  · intro pt hpt doc hdoc
    cases he : Islamic.patternElemsE T ⟨size, lw, sc, bg, pt⟩ with
    | error e => rw [Islamic.dispatch, he] at hdoc; exact absurd hdoc (by simp [Except.map])
    | ok es =>
      rw [Islamic.dispatch, he] at hdoc
      simp only [Except.map] at hdoc
      obtain rfl : Islamic.mkDoc ⟨size, lw, sc, bg, pt⟩ es = doc := by
        simpa using hdoc
      refine ⟨es, rfl, rfl, ?_⟩
      show (Islamic.mkDoc ⟨size, lw, sc, bg, pt⟩ es).data.count '<' = 8 + es.length
      unfold Islamic.mkDoc
      simp only [count_str_append, count_lt_islamicHeader size bg hbg,
        count_lt_islamicGroupOpen sc lw hsc hlw, count_lt_renderElems]
      have h1 : ("</g>\n").data.count '<' = 1 := by decide
      have h2 : (Islamic.svgFooter).data.count '<' = 1 := by decide
      rw [h1, h2]
      omega

/-- C9: when a vector generator is constructed with
`stroke_color="#FF0000"` and `stroke_width=2.5`, every supported pattern's
document contains the style-carrying group opening declaring exactly
`stroke="#FF0000"` and `stroke-width="2.5"`, verbatim. -/
theorem c9_styling_roundtrip (T : Trig) (size : ℕ) (bg p : String) :
    SvgGen.groupOpen "#FF0000" "2.5" =
      "<g stroke=\"#FF0000\" stroke-width=\"2.5\" fill=\"none\">\n" ∧
    ComplexSvgGen.groupOpen "#FF0000" "2.5" =
      "<g stroke=\"#FF0000\" stroke-width=\"2.5\" fill=\"none\">\n" ∧
    Islamic.groupOpen "#FF0000" "2.5" =
      "<g stroke=\"#FF0000\" stroke-width=\"2.5\" fill=\"none\">\n" ∧
    (p ∈ SvgGen.supported → ∀ doc,
      SvgGen.dispatch T ⟨size, "2.5", "#FF0000", bg⟩ p = .ok doc →
      containsSub doc "<g stroke=\"#FF0000\" stroke-width=\"2.5\" fill=\"none\">\n") ∧
    (p ∈ ComplexSvgGen.supported → ∀ doc,
      ComplexSvgGen.dispatch T ⟨size, "2.5", "#FF0000", bg⟩ p = .ok doc →
      containsSub doc "<g stroke=\"#FF0000\" stroke-width=\"2.5\" fill=\"none\">\n") ∧
    (p ∈ Islamic.supported → ∀ doc,
      Islamic.dispatch T ⟨size, "2.5", "#FF0000", bg, p⟩ = .ok doc →
      containsSub doc "<g stroke=\"#FF0000\" stroke-width=\"2.5\" fill=\"none\">\n") := by
  refine ⟨rfl, rfl, rfl, ?_, ?_, ?_⟩
  · intro hp doc hdoc
    cases he : SvgGen.patternElemsE T ⟨size, "2.5", "#FF0000", bg⟩ p with
    | error e => rw [SvgGen.dispatch, he] at hdoc; exact absurd hdoc (by simp [Except.map])
    | ok es =>
      rw [SvgGen.dispatch, he] at hdoc
      simp only [Except.map] at hdoc
      obtain rfl : SvgGen.mkDoc ⟨size, "2.5", "#FF0000", bg⟩ es = doc := by simpa using hdoc
      refine ⟨SvgGen.svgHeader size bg,
        renderElems es ++ "</g>\n" ++ SvgGen.svgFooter, ?_⟩
      show SvgGen.mkDoc _ es = _
      unfold SvgGen.mkDoc
      simp only [String.append_assoc]
      rfl
  · intro hp doc hdoc
    cases he : ComplexSvgGen.patternElemsE T ⟨size, "2.5", "#FF0000", bg⟩ p with
    | error e => rw [ComplexSvgGen.dispatch, he] at hdoc; exact absurd hdoc (by simp [Except.map])
    | ok es =>
      rw [ComplexSvgGen.dispatch, he] at hdoc
      simp only [Except.map] at hdoc
      obtain rfl : ComplexSvgGen.mkDoc ⟨size, "2.5", "#FF0000", bg⟩ es = doc := by
        simpa using hdoc
      refine ⟨ComplexSvgGen.svgHeader size bg,
        renderElems es ++ "</g>\n" ++ ComplexSvgGen.svgFooter, ?_⟩
      show ComplexSvgGen.mkDoc _ es = _
      unfold ComplexSvgGen.mkDoc
      simp only [String.append_assoc]
      rfl
  · intro hp doc hdoc
    cases he : Islamic.patternElemsE T ⟨size, "2.5", "#FF0000", bg, p⟩ with
    | error e => rw [Islamic.dispatch, he] at hdoc; exact absurd hdoc (by simp [Except.map])
    | ok es =>
      rw [Islamic.dispatch, he] at hdoc
      simp only [Except.map] at hdoc
      obtain rfl : Islamic.mkDoc ⟨size, "2.5", "#FF0000", bg, p⟩ es = doc := by
        simpa using hdoc
      refine ⟨Islamic.svgHeader size bg,
        renderElems es ++ "</g>\n" ++ Islamic.svgFooter, ?_⟩
      show Islamic.mkDoc _ es = _
      unfold Islamic.mkDoc
      simp only [String.append_assoc]
      rfl

/-- C9 witness: the complex vector engine's `celtic_knots` document built
with the red 2.5-wide styling contains the exact group declaration. -/
theorem c9_witness :
    "celtic_knots" ∈ SvgGen.supported ∧
    containsSub (SvgGen.mkDoc ⟨0, "2.5", "#FF0000", "#FFFFFF"⟩ [])
      "<g stroke=\"#FF0000\" stroke-width=\"2.5\" fill=\"none\">\n" := by
  refine ⟨by decide, ?_⟩
  exact (c9_styling_roundtrip T0 0 "#FFFFFF" "celtic_knots").2.2.2.1 (by decide) _ rfl

/-- C10 witness: the `celtic_knots` document at size 0 with default
styling decomposes into header, one style group, empty body and the two
closing tags, with exactly `8 = 8 + 0` markup openings. -/
theorem c10_witness :
    "celtic_knots" ∈ SvgGen.supported ∧
    (∃ es, SvgGen.patternElemsE T0 ⟨0, "1.0", "#000000", "#FFFFFF"⟩ "celtic_knots" = .ok es ∧
      SvgGen.mkDoc ⟨0, "1.0", "#000000", "#FFFFFF"⟩ [] =
        SvgGen.svgHeader 0 "#FFFFFF" ++ SvgGen.groupOpen "#000000" "1.0" ++
          renderElems es ++ "</g>\n" ++ SvgGen.svgFooter ∧
      (SvgGen.mkDoc ⟨0, "1.0", "#000000", "#FFFFFF"⟩ []).data.count '<' = 8 + es.length) := by
  refine ⟨by decide, ?_⟩
  exact (c10_document_structure T0 0 "1.0" "#000000" "#FFFFFF"
    (by decide) (by decide) (by decide)).1 "celtic_knots" (by decide) _ rfl

theorem quad_eightStar (T : Trig) (x y s : ℚ) :
    (Islamic.drawEightPointedStar T x y s).countP (SvgElem.isPolyWith 4) = 0 := rfl

theorem quad_octagon (T : Trig) (x y s : ℚ) :
    (Islamic.drawOctagonGrid T x y s).countP (SvgElem.isPolyWith 4) = 0 := rfl

theorem quad_tenStar (T : Trig) (x y s : ℚ) :
    (Islamic.drawTenPointedStar T x y s).countP (SvgElem.isPolyWith 4) = 0 := rfl

theorem quad_decagon (T : Trig) (x y s : ℚ) :
    (Islamic.drawDecagonElements T x y s).countP (SvgElem.isPolyWith 4) = 0 := rfl

/-- No 4-vertex polygon occurs anywhere in the eight-fold document. -/
theorem eightFold_no_quad (T : Trig) (size : ℕ) :
    (Islamic.eightFoldElems T size).countP (SvgElem.isPolyWith 4) = 0 := by
  unfold Islamic.eightFoldElems
  rw [List.countP_append]
  rw [countP_flatMap_zero _ _ _ ?grid]
  case grid =>
    intro ri _
    apply countP_flatMap_zero
    intro ci _
    rw [List.countP_append, quad_eightStar, quad_octagon]
  rfl

/-- No 4-vertex polygon occurs anywhere in the ten-fold document. -/
theorem tenFold_no_quad (T : Trig) (size : ℕ) :
    (Islamic.tenFoldElems T size).countP (SvgElem.isPolyWith 4) = 0 := by
  unfold Islamic.tenFoldElems
  rw [List.countP_append]
  rw [countP_flatMap_zero _ _ _ ?grid]
  case grid =>
    intro ri _
    apply countP_flatMap_zero
    intro ci _
    rw [List.countP_append, quad_tenStar, quad_decagon]
  rfl

/-- C6 (amended): only the twelve-fold pattern emits diamond connectors.
The eight-fold and ten-fold connection helpers discard every
`_draw_diamond_connector` result, so those documents contain no 4-vertex
polygon at all; the twelve-fold document contains, for each cell of its
4×4 connector grid, a horizontal rhombus (when `col < 3`) from the unit
center to the point half a unit right of it and a vertical rhombus (when
`row < 3`) to the point half a unit below it — connectors run center to
edge-midpoint, not center to adjacent center, and the diagonal positions
get a 6-line crossing pattern, not a rhombus.  Each connector is a
4-vertex polygon whose first and third vertices are the segment's
endpoints. -/
theorem c6_diamond_connectors (T : Trig) (size : ℕ) (u : ℚ)
    (row col row2 col2 : ℕ) (hrow : row < 4) (hcol : col < 3)
    (hrow2 : row2 < 3) (hcol2 : col2 < 4) :
    (∀ v : ℚ, Islamic.drawConnectingElements v = []) ∧
    (∀ v : ℚ, Islamic.drawTenFoldConnections v = []) ∧
    (Islamic.eightFoldElems T size).countP (SvgElem.isPolyWith 4) = 0 ∧
    (Islamic.tenFoldElems T size).countP (SvgElem.isPolyWith 4) = 0 ∧
    (Islamic.drawDiamondConnector T ((col : ℚ) * u + u / 2) ((row : ℚ) * u + u / 2)
        ((col : ℚ) * u + u / 2 + u / 2) ((row : ℚ) * u + u / 2) (u * (3 / 20))
      ∈ Islamic.drawTwelveFoldConnections T u) ∧
    (Islamic.drawDiamondConnector T ((col2 : ℚ) * u + u / 2) ((row2 : ℚ) * u + u / 2)
        ((col2 : ℚ) * u + u / 2) ((row2 : ℚ) * u + u / 2 + u / 2) (u * (3 / 20))
      ∈ Islamic.drawTwelveFoldConnections T u) ∧
    (∀ e ∈ Islamic.drawTwelveFoldConnections T ((size : ℚ) / 3),
      e ∈ Islamic.twelveFoldElems T size) ∧
    (∀ x1 y1 x2 y2 w : ℚ, ∃ p2 p4,
      Islamic.drawDiamondConnector T x1 y1 x2 y2 w =
        SvgElem.polygon [(x1, y1), p2, (x2, y2), p4]) := by
  refine ⟨fun _ => rfl, fun _ => rfl, eightFold_no_quad T size, tenFold_no_quad T size,
    ?_, ?_, ?_, fun x1 y1 x2 y2 w => ⟨_, _, rfl⟩⟩
  · refine List.mem_flatMap.mpr ⟨row, List.mem_range.mpr hrow, ?_⟩
    refine List.mem_flatMap.mpr ⟨col, List.mem_range.mpr (by omega), ?_⟩
    simp [hcol]
  · refine List.mem_flatMap.mpr ⟨row2, List.mem_range.mpr (by omega), ?_⟩
    refine List.mem_flatMap.mpr ⟨col2, List.mem_range.mpr hcol2, ?_⟩
    by_cases h2 : col2 < 3 <;> simp [h2, hrow2]
  · intro e he
    unfold Islamic.twelveFoldElems
    exact List.mem_append_right _ he

/-- C6 witness: at unit size 3 the twelve-fold connection list contains
the horizontal and the vertical connector of the top-left cell. -/
theorem c6_witness :
    ((0 : ℕ) < 4 ∧ (0 : ℕ) < 3) ∧
    (Islamic.drawDiamondConnector T0 ((0 : ℚ) * 3 + 3 / 2) ((0 : ℚ) * 3 + 3 / 2)
        ((0 : ℚ) * 3 + 3 / 2 + 3 / 2) ((0 : ℚ) * 3 + 3 / 2) (3 * (3 / 20))
      ∈ Islamic.drawTwelveFoldConnections T0 3) := by
  have h := c6_diamond_connectors T0 9 3 0 0 0 0
    (by norm_num) (by norm_num) (by norm_num) (by norm_num)
  exact ⟨⟨by norm_num, by norm_num⟩, h.2.2.2.2.1⟩

/-- C6 counterexample: the claim requires a rhombus connector between
horizontally adjacent unit centers in the eight-fold document, but at size
400 that document contains no 4-vertex polygon whatsoever (the connecting
elements helper's output is discarded). -/
theorem c6_counterexample :
    (Islamic.eightFoldElems T0 400).countP (SvgElem.isPolyWith 4) = 0 :=
  eightFold_no_quad T0 400

theorem hex400_count (T : Trig) :
    exceptCount SvgElem.isPolygon (SvgGen.hexagonalElemsE T 400) = some 56 := by
  have hs : Nat.sqrt 4800 = 69 := by norm_num
  unfold SvgGen.hexagonalElemsE
  simp only [Nat.reduceDiv, Nat.reduceMul, Nat.reduceAdd, hs]
  norm_num [exceptCount]
  refine ⟨_, rfl, ?_⟩
  rw [List.countP_eq_length.mpr, length_grid]
  intro a ha
  simp only [List.mem_flatMap, List.mem_map, List.mem_range] at ha
  obtain ⟨r, -, c, -, rfl⟩ := ha
  rfl

/-- C7: the (spec-modelled) simple vector engine supports exactly
{triangular, square, hexagonal}: every other name is rejected with the
unsupported-pattern error; at size 400 the triangular document carries 53
line elements and no polygon, square succeeds, and the hexagonal document
declares the 400×400 root dimensions and carries 56 hexagon polygons. -/
theorem c7_simple_engine (T : Trig) (lw : String) :
    (∀ p, p ∉ SimpleSvg.supported → ∀ cfg : SimpleSvg.Config,
      SimpleSvg.dispatch T cfg p = .error ("Unknown pattern type: " ++ p)) ∧
    exceptCount SvgElem.isLine (SimpleSvg.patternElemsE T ⟨400, lw⟩ "triangular") =
      some 53 ∧
    exceptCount SvgElem.isPolygon (SimpleSvg.patternElemsE T ⟨400, lw⟩ "triangular") =
      some 0 ∧
    (∃ doc, SimpleSvg.dispatch T ⟨400, lw⟩ "square" = .ok doc) ∧
    exceptCount SvgElem.isPolygon (SimpleSvg.patternElemsE T ⟨400, lw⟩ "hexagonal") =
      some 56 ∧
    (∃ doc, SimpleSvg.dispatch T ⟨400, lw⟩ "hexagonal" = .ok doc ∧
      containsSub doc "<svg width=\"400\" height=\"400\"") := by
  have hpt : SimpleSvg.patternElemsE T ⟨400, lw⟩ "triangular" =
      SvgGen.triangularElemsE 400 := by simp [SimpleSvg.patternElemsE]
  have hps : SimpleSvg.patternElemsE T ⟨400, lw⟩ "square" =
      SvgGen.squareElemsE 400 := by simp [SimpleSvg.patternElemsE]
  have hpe : SimpleSvg.patternElemsE T ⟨400, lw⟩ "hexagonal" =
      SvgGen.hexagonalElemsE T 400 := by simp [SimpleSvg.patternElemsE]
  have h56 : exceptCount SvgElem.isPolygon
      (SimpleSvg.patternElemsE T ⟨400, lw⟩ "hexagonal") = some 56 := by
    rw [hpe]; exact hex400_count T
  refine ⟨?_, by rw [hpt]; decide, by rw [hpt]; decide, ?_, h56, ?_⟩
  · intro p hp cfg
    simp only [SimpleSvg.supported, List.mem_cons, List.not_mem_nil, or_false,
      not_or] at hp
    unfold SimpleSvg.dispatch SimpleSvg.patternElemsE
    rw [if_neg hp.1, if_neg hp.2.1, if_neg hp.2.2]
    rfl
  · cases hcase : SimpleSvg.patternElemsE T ⟨400, lw⟩ "square" with
    | error e =>
      rw [hps] at hcase
      have : (SvgGen.squareElemsE 400).toOption.isSome = true := by decide
      rw [hcase] at this
      simp [Except.toOption] at this
    | ok es =>
      exact ⟨SimpleSvg.mkDoc ⟨400, lw⟩ es, by
        unfold SimpleSvg.dispatch; rw [hcase]; rfl⟩
  · cases hcase : SimpleSvg.patternElemsE T ⟨400, lw⟩ "hexagonal" with
    | error e =>
      rw [hcase] at h56
      simp [exceptCount, Except.toOption] at h56
    | ok es =>
      refine ⟨SimpleSvg.mkDoc ⟨400, lw⟩ es, by
        unfold SimpleSvg.dispatch; rw [hcase]; rfl, ?_⟩
      refine ⟨"<?xml version=\"1.0\" encoding=\"UTF-8\" standalone=\"no\"?>\n",
        " xmlns=\"http://www.w3.org/2000/svg\">\n" ++ SimpleSvg.groupOpen lw ++
          renderElems es ++ "</g>\n" ++ SimpleSvg.svgFooter, ?_⟩
      show SimpleSvg.mkDoc _ _ = _
      unfold SimpleSvg.mkDoc SimpleSvg.svgHeader
      simp only [String.append_assoc]
      rfl

/-- C7 witness: `"penrose"` is outside the simple engine's supported set
and is rejected; the triangular element count at 400 is as stated. -/
theorem c7_witness :
    ("penrose" ∉ SimpleSvg.supported ∧
      SimpleSvg.dispatch T0 ⟨400, "1.0"⟩ "penrose" =
        .error "Unknown pattern type: penrose") ∧
    exceptCount SvgElem.isLine
      (SimpleSvg.patternElemsE T0 ⟨400, "1.0"⟩ "triangular") = some 53 := by
  have h := c7_simple_engine T0 "1.0"
  exact ⟨⟨by decide, h.1 "penrose" (by decide) ⟨400, "1.0"⟩⟩, h.2.1⟩
